import Mathlib

/-!
Shallow embedding of `elasticapm/utils/cloud.py`: the cloud-provider metadata
probes (`aws_metadata`, `gcp_metadata`, `azure_metadata`,
`azure_app_service_metadata`) and their normalization of provider metadata into
a common mapping shape.

External collaborators (the urllib3 HTTP client, the JSON decoder, the socket
primitives and `os.environ`) are modelled as explicit environment records: each
network or environment operation is an oracle field giving either a value or a
raised Python exception.  The probes themselves are translated statement by
statement from the source; a probe that can propagate an exception to its
caller returns `Except PyExc Dict`, a probe that catches `Exception` broadly
returns `Dict`.
-/

namespace Cloud

/-- The Python exceptions relevant to the module.  `httpError status` stands
for a `urllib3.exceptions.HTTPError` whose attached response has the given
HTTP status (the AWS handler reads `e.response.status`). -/
inductive PyExc where
  | socketError
  | httpError (status : Nat)
  | jsonDecodeError
  | keyError (k : String)
  | typeError
  | valueError
  | indexError
  deriving DecidableEq

/-- Python values as they occur in the module: JSON-decoded documents and the
entries of the returned metadata dictionaries.  JSON numbers are modelled as
integers (the only numeric field any claim touches, `instance.id` on GCP, is
an integer id). -/
inductive PyVal where
  | str (s : String)
  | int (n : Int)
  | bool (b : Bool)
  | null
  | dict (kvs : List (String × PyVal))
  | list (xs : List PyVal)

/-- A Python dictionary with string keys, in insertion order. -/
abbrev Dict := List (String × PyVal)

/-- Python truthiness on the modelled values (`if not ret["availability_zone"]`,
`if not all(...)`). -/
def PyVal.falsy : PyVal → Bool
  | .str s => s == ""
  | .int n => n == 0
  | .bool b => !b
  | .null => true
  | .dict kvs => kvs.isEmpty
  | .list xs => xs.isEmpty

/-- `v[k]` on a Python value: a key lookup on a dict raises `KeyError` when the
key is missing, and indexing a non-dict with a string key raises `TypeError`. -/
def PyVal.index (v : PyVal) (k : String) : Except PyExc PyVal :=
  match v with
  | .dict kvs =>
    match kvs.lookup k with
    | some w => .ok w
    | none => .error (.keyError k)
  | _ => .error .typeError

/-- Using a Python value where a `str` is required (`os.path.split`,
`str.split`); any other value raises `TypeError`. -/
def PyVal.asStr : PyVal → Except PyExc String
  | .str s => .ok s
  | _ => .error .typeError

/-- Python `str(v)`.  Only scalar renderings are claim-relevant; container
rendering is abstracted to a marker. -/
def pyStr : PyVal → String
  | .str s => s
  | .int n => toString n
  | .bool b => if b then "True" else "False"
  | .null => "None"
  | .dict _ => "\x7bdict\x7d"
  | .list _ => "[list]"

/-- Worker for Python `str.split` on character lists: scan left to right,
cutting at each non-overlapping occurrence of the (non-empty) separator.  The
fuel argument (at least `s.length + 1`) only makes the recursion structural;
each step consumes at least one character of `s`. -/
def pySplitGo (sep : List Char) : Nat → List Char → List Char → List (List Char)
  | 0, s, acc => [acc.reverse ++ s]
  | fuel + 1, s, acc =>
    if sep.isPrefixOf s then
      acc.reverse :: pySplitGo sep fuel (s.drop sep.length) []
    else
      match s with
      | [] => [acc.reverse]
      | c :: rest => pySplitGo sep fuel rest (c :: acc)

/-- Python `s.split(sep)` for a non-empty separator: all non-overlapping
occurrences, keeping empty parts (`"+".split("+") = ["", ""]`). -/
def pySplit (sep s : String) : List String :=
  (pySplitGo sep.data (s.data.length + 1) s.data []).map (fun cs => ⟨cs⟩)

/-- Python `c in s` for a single-character needle. -/
def pyContainsChar (s : String) (c : Char) : Bool :=
  s.data.contains c

/-- Python `s[:-1]`: the string minus its final character (identity on the
empty string). -/
def pyDropLastChar (s : String) : String :=
  ⟨s.data.dropLast⟩

/-- The last `sep`-separated segment of `s`: Python `s.split(sep)[-1]` and,
for `sep = "/"`, the tail component `os.path.split(s)[1]`. -/
def lastSegOn (sep s : String) : String :=
  (pySplit sep s).getLastD s

/-- Python `s.rsplit(sep, 1)`: split once at the rightmost occurrence of
`sep`; a string not containing `sep` yields the one-element list `[s]`. -/
def rsplit1 (sep s : String) : List String :=
  let parts := pySplit sep s
  if parts.length ≤ 1 then parts
  else [String.intercalate sep parts.dropLast, parts.getLastD ""]

/-- Python `s.split(sep, 1)`: split once at the leftmost occurrence of `sep`. -/
def split1 (sep s : String) : List String :=
  match pySplit sep s with
  | [] => []
  | [x] => [x]
  | x :: rest => [x, String.intercalate sep rest]

/-- The character `+` (the delimiter checked by `"+" not in website_owner_name`). -/
def plusChar : Char := Char.ofNat 43

/-- The character `-` (the region delimiter in the owner-name suffix). -/
def dashChar : Char := Char.ofNat 45

/-- `os.environ.get`: an environment is a map from variable names to their
optional values. -/
abbrev Environ := String → Option String

/-- The truthiness check and owner-name parse of `azure_app_service_metadata`
once the four `WEBSITE_*` variables are present: `if not all(...)`, the
`"+" not in website_owner_name` guard, then the chained splits of
`{subscription id}+{plan resource group}-{region}webspace{suffix}`.  The
`try/except Exception` around the splits is rendered as the catch-all match
arms (a failed two-way unpacking raises `ValueError`, a missing `[1]` raises
`IndexError`; both are caught and yield the empty dict). -/
def appServiceParse (owner iid site rg : String) : Dict :=
  if owner = "" ∨ iid = "" ∨ site = "" ∨ rg = "" then []
  else if !(pyContainsChar owner plusChar) then []
  else
    match pySplit "+" owner with
    | [accountId, rest] =>
      match pySplit "webspace" rest with
      | [pre, _] =>
        match rsplit1 "-" pre with
        | [_, region] =>
          [("provider", .str "azure"),
           ("account", .dict [("id", .str accountId)]),
           ("region", .str region),
           ("instance", .dict [("id", .str iid), ("name", .str site)]),
           ("project", .dict [("name", .str rg)])]
        | _ => []
      | _ => []
    | _ => []

/-- `azure_app_service_metadata`: reads the four `WEBSITE_*` variables
(`os.environ.get`, so a missing variable is `None` and fails the `all(...)`
check) and hands them to the parse above. -/
def azure_app_service_metadata (environ : Environ) : Dict :=
  match environ "WEBSITE_OWNER_NAME", environ "WEBSITE_INSTANCE_ID",
        environ "WEBSITE_SITE_NAME", environ "WEBSITE_RESOURCE_GROUP" with
  | some owner, some iid, some site, some rg => appServiceParse owner iid site rg
  | _, _, _, _ => []

/-- Hypothetical variant of `appServiceParse` whose two owner-name splits use
Python `split(sep, 1)` (split only once) instead of the source's unbounded
`split(sep)`; used to state in what way the source's two-way unpacking is
stricter than a maxsplit-1 parse. -/
def appServiceParseSplit1 (owner iid site rg : String) : Dict :=
  if owner = "" ∨ iid = "" ∨ site = "" ∨ rg = "" then []
  else if !(pyContainsChar owner plusChar) then []
  else
    match split1 "+" owner with
    | [accountId, rest] =>
      match split1 "webspace" rest with
      | [pre, _] =>
        match rsplit1 "-" pre with
        | [_, region] =>
          [("provider", .str "azure"),
           ("account", .dict [("id", .str accountId)]),
           ("region", .str region),
           ("instance", .dict [("id", .str iid), ("name", .str site)]),
           ("project", .dict [("name", .str rg)])]
        | _ => []
      | _ => []
    | _ => []

/-- The split-once variant of `azure_app_service_metadata`. -/
def azure_app_service_metadata_split1 (environ : Environ) : Dict :=
  match environ "WEBSITE_OWNER_NAME", environ "WEBSITE_INSTANCE_ID",
        environ "WEBSITE_SITE_NAME", environ "WEBSITE_RESOURCE_GROUP" with
  | some owner, some iid, some site, some rg => appServiceParseSplit1 owner iid site rg
  | _, _, _, _ => []

/-- Oracle for `azure_metadata`: the outcome of the link-local TCP connection
(100ms timeout), the body of the GET on the versioned compute-metadata URL
(header `Metadata: true`, 1s timeout, no retries), the JSON decoder, and the
process environment (read by the App Service fallback). -/
structure AzureEnv where
  connect : Except PyExc Unit
  fetchCompute : Except PyExc String
  json_loads : String → Except PyExc PyVal
  environ : Environ

/-- The body of `azure_metadata`'s `try` block: connect, fetch, decode, then
build the normalized mapping (in the evaluation order of the source's dict
literal) and drop `availability_zone` when the zone value is falsy. -/
def azurePipeline (e : AzureEnv) : Except PyExc Dict :=
  match e.connect with
  | .error err => .error err
  | .ok _ =>
  match e.fetchCompute with
  | .error err => .error err
  | .ok body =>
  match e.json_loads body with
  | .error err => .error err
  | .ok doc =>
  match doc.index "subscriptionId" with
  | .error err => .error err
  | .ok subId =>
  match doc.index "vmId" with
  | .error err => .error err
  | .ok vmId =>
  match doc.index "name" with
  | .error err => .error err
  | .ok vmName =>
  match doc.index "resourceGroupName" with
  | .error err => .error err
  | .ok rgName =>
  match doc.index "zone" with
  | .error err => .error err
  | .ok zone =>
  match doc.index "vmSize" with
  | .error err => .error err
  | .ok vmSize =>
  match doc.index "location" with
  | .error err => .error err
  | .ok location =>
  let ret : Dict :=
    [("account", .dict [("id", subId)]),
     ("instance", .dict [("id", vmId), ("name", vmName)]),
     ("project", .dict [("name", rgName)]),
     ("availability_zone", zone),
     ("machine", .dict [("type", vmSize)]),
     ("provider", .str "azure"),
     ("region", location)]
  if zone.falsy then
    .ok (ret.filter (fun kv => kv.1 != "availability_zone"))
  else
    .ok ret

/-- `azure_metadata`: the `try` body, with `except Exception` delegating to
`azure_app_service_metadata`. -/
def azure_metadata (e : AzureEnv) : Dict :=
  match azurePipeline e with
  | .ok d => d
  | .error _ => azure_app_service_metadata e.environ

/-- Oracle for `gcp_metadata`: the outcome of `socket.getaddrinfo` on
`metadata.google.internal`, the body of the GET on the recursive metadata URL
(header `Metadata-Flavor: Google`, 1s timeout, no retries), and the JSON
decoder. -/
structure GcpEnv where
  getaddrinfo : Except PyExc Unit
  fetchMeta : Except PyExc String
  json_loads : String → Except PyExc PyVal

/-- The body of `gcp_metadata`'s `try` block: resolve, fetch, decode, take the
tail of `instance.zone` as availability zone (`os.path.split(...)[1]`), then
build the normalized mapping in the source's evaluation order. -/
def gcpPipeline (e : GcpEnv) : Except PyExc Dict :=
  match e.getaddrinfo with
  | .error err => .error err
  | .ok _ =>
  match e.fetchMeta with
  | .error err => .error err
  | .ok body =>
  match e.json_loads body with
  | .error err => .error err
  | .ok doc =>
  match doc.index "instance" with
  | .error err => .error err
  | .ok instanceVal =>
  match instanceVal.index "zone" with
  | .error err => .error err
  | .ok zoneVal =>
  match zoneVal.asStr with
  | .error err => .error err
  | .ok zone =>
  let availability_zone := lastSegOn "/" zone
  match instanceVal.index "id" with
  | .error err => .error err
  | .ok idVal =>
  match instanceVal.index "name" with
  | .error err => .error err
  | .ok nameVal =>
  match doc.index "project" with
  | .error err => .error err
  | .ok projectVal =>
  match projectVal.index "projectId" with
  | .error err => .error err
  | .ok projectId =>
  match instanceVal.index "machineType" with
  | .error err => .error err
  | .ok machineTypeVal =>
  match machineTypeVal.asStr with
  | .error err => .error err
  | .ok machineType =>
  .ok [("provider", .str "gcp"),
       ("instance", .dict [("id", .str (pyStr idVal)), ("name", nameVal)]),
       ("project", .dict [("id", projectId)]),
       ("availability_zone", .str availability_zone),
       ("region", .str ((rsplit1 "-" availability_zone).headD "")),
       ("machine", .dict [("type", .str (lastSegOn "/" machineType))])]

/-- `gcp_metadata`: the `try` body, with `except Exception` yielding the empty
mapping. -/
def gcp_metadata (e : GcpEnv) : Dict :=
  match gcpPipeline e with
  | .ok d => d
  | .error _ => []

/-- `V1_URL` in `aws_metadata`. -/
def V1_URL : String := "http://169.254.169.254/latest/meta-data/"

/-- `V2_TOKEN_URL` in `aws_metadata`. -/
def V2_TOKEN_URL : String := "http://169.254.169.254/latest/api/token"

/-- `TOKEN_HEADERS` in `aws_metadata`. -/
def TOKEN_HEADERS : List (String × String) :=
  [("X-aws-ec2-metadata-token-ttl-seconds", "300")]

/-- A urllib3 `Retry` configuration, by the fields `aws_metadata` sets. -/
structure RetryConf where
  total : Nat
  backoff_factor : Nat
  status_forcelist : List Nat
  deriving DecidableEq

/-- The `Retry` object installed on `aws_metadata`'s `PoolManager`:
`Retry(total=5, backoff_factor=1, status_forcelist=[401])`. -/
def awsPoolRetryConf : RetryConf :=
  { total := 5, backoff_factor := 1, status_forcelist := [401] }

/-- The `retries` argument a single `http.request` call passes: absent (use the
pool default) or explicitly `retries=False`. -/
inductive RetryArg where
  | poolDefault
  | disabled
  deriving DecidableEq

/-- One HTTP request as issued by `aws_metadata` (timeouts in milliseconds). -/
structure Request where
  method : String
  url : String
  headers : List (String × String)
  timeoutMs : Nat
  retries : RetryArg
  deriving DecidableEq

/-- The retry policy that actually governs a request: the pool's configuration
unless the request passes `retries=False`. -/
def Request.effRetries (poolConf : RetryConf) (r : Request) : Option RetryConf :=
  match r.retries with
  | .poolDefault => some poolConf
  | .disabled => none

/-- The GET that `fetch_metadata` issues: `V1_URL + path`, 1s timeout,
`retries=False`. -/
def fetch_metadata_request (path : String) (headers : List (String × String)) :
    Request :=
  { method := "GET", url := V1_URL ++ path, headers := headers,
    timeoutMs := 1000, retries := .disabled }

/-- The IMDSv2 token request: `PUT` on `V2_TOKEN_URL` with the TTL header, 1s
timeout, and no `retries` argument (so the pool's `Retry` applies). -/
def tokenRequest : Request :=
  { method := "PUT", url := V2_TOKEN_URL, headers := TOKEN_HEADERS,
    timeoutMs := 1000, retries := .poolDefault }

/-- Oracle for `aws_metadata`: the link-local TCP connection outcome, the body
returned by the token `PUT`, the body returned by a `fetch_metadata` GET for
each metadata path, and the JSON decoder. -/
structure AwsEnv where
  connect : Except PyExc Unit
  token : Except PyExc String
  fetch : String → Except PyExc String
  json_loads : String → Except PyExc PyVal

/-- Whether `aws_metadata`'s outer `except (socket.error,
urllib3.exceptions.HTTPError)` catches the exception. -/
def outerCatches : PyExc → Bool
  | .socketError => true
  | .httpError _ => true
  | _ => false

/-- The identity-document path fetched by the IMDSv2 flow. -/
def awsDocPath : String := "dynamic/instance-identity/document"

/-- The four flat text-field paths fetched by the IMDSv1 fallback, in source
order. -/
def flatFieldPaths : List String :=
  ["iam/info", "instance-id", "instance-type", "placement/availability-zone"]

/-- The IMDSv1 fallback body (the `e.response.status == 401` branch): four
`fetch_metadata` GETs, then the flat dictionary with `region` as the
availability zone minus its final character.  An exception raised by one of the
GETs escapes the inner handler; the outer handler turns a socket or HTTP error
into the empty mapping and anything else propagates.  The second component
accumulates the requests issued. -/
def awsV1Fallback (env : AwsEnv) (tr : List Request) :
    Except PyExc Dict × List Request :=
  let tr1 := tr ++ [fetch_metadata_request "iam/info" []]
  match env.fetch "iam/info" with
  | .error e => (if outerCatches e then .ok [] else .error e, tr1)
  | .ok account_id =>
  let tr2 := tr1 ++ [fetch_metadata_request "instance-id" []]
  match env.fetch "instance-id" with
  | .error e => (if outerCatches e then .ok [] else .error e, tr2)
  | .ok instance_id =>
  let tr3 := tr2 ++ [fetch_metadata_request "instance-type" []]
  match env.fetch "instance-type" with
  | .error e => (if outerCatches e then .ok [] else .error e, tr3)
  | .ok instance_type =>
  let tr4 := tr3 ++ [fetch_metadata_request "placement/availability-zone" []]
  match env.fetch "placement/availability-zone" with
  | .error e => (if outerCatches e then .ok [] else .error e, tr4)
  | .ok availability_zone =>
    (.ok [("accountId", .str account_id),
          ("instanceId", .str instance_id),
          ("instanceType", .str instance_type),
          ("availabilityZone", .str availability_zone),
          ("region", .str (pyDropLastChar availability_zone))],
     tr4)

/-- What becomes of an exception raised inside `aws_metadata`'s inner `try`:
the inner `except urllib3.exceptions.HTTPError` branches on
`e.response.status == 401` (falling through to `return metadata`, still the
empty dict, for other statuses); a socket error skips the inner handler and is
caught by the outer one; anything else propagates to the caller. -/
def awsHandle (env : AwsEnv) (e : PyExc) (tr : List Request) :
    Except PyExc Dict × List Request :=
  match e with
  | .httpError status =>
    if status = 401 then awsV1Fallback env tr else (.ok [], tr)
  | .socketError => (.ok [], tr)
  | _ => (.error e, tr)

/-- The IMDSv2 normalization of the identity document, with the key lookups in
the evaluation order of the source's dict literal. -/
def awsNormalize (doc : PyVal) : Except PyExc Dict :=
  match doc.index "accountId" with
  | .error err => .error err
  | .ok accountId =>
  match doc.index "instanceId" with
  | .error err => .error err
  | .ok instanceId =>
  match doc.index "availabilityZone" with
  | .error err => .error err
  | .ok availabilityZone =>
  match doc.index "instanceType" with
  | .error err => .error err
  | .ok instanceType =>
  match doc.index "region" with
  | .error err => .error err
  | .ok region =>
  .ok [("account", .dict [("id", accountId)]),
       ("instance", .dict [("id", instanceId)]),
       ("availability_zone", availabilityZone),
       ("machine", .dict [("type", instanceType)]),
       ("provider", .str "aws"),
       ("region", region)]

/-- `aws_metadata`: connectivity check, IMDSv2 token + identity document with
normalization, the inner handler's 401-triggered IMDSv1 fallback, and the
outer `except (socket.error, HTTPError)` returning the empty mapping.  Returns
the result (or the propagated exception) together with the list of HTTP
requests issued. -/
def aws_metadata (env : AwsEnv) : Except PyExc Dict × List Request :=
  match env.connect with
  | .error e => (if outerCatches e then .ok [] else .error e, [])
  | .ok _ =>
  let tr0 := [tokenRequest]
  match env.token with
  | .error e => awsHandle env e tr0
  | .ok token =>
  let hdr := if token = "" then [] else [("X-aws-ec2-metadata-token", token)]
  let tr1 := tr0 ++ [fetch_metadata_request awsDocPath hdr]
  match env.fetch awsDocPath with
  | .error e => awsHandle env e tr1
  | .ok body =>
  match env.json_loads body with
  | .error e => awsHandle env e tr1
  | .ok doc =>
  match awsNormalize doc with
  | .error e => awsHandle env e tr1
  | .ok d => (.ok d, tr1)

/-- A request is one of the IMDSv1 flat text-field GETs. -/
def isFlatFieldGet (r : Request) : Bool :=
  r.method == "GET" && flatFieldPaths.any (fun p => r.url == V1_URL ++ p)

/-- A mapping carries the normalized core: `provider` with the given value,
some `region`, and a nested `instance` dictionary with an `id`. -/
def hasCore (provider : String) (d : Dict) : Prop :=
  d.lookup "provider" = some (.str provider)
  ∧ (∃ v, d.lookup "region" = some v)
  ∧ (∃ m v, d.lookup "instance" = some (.dict m) ∧ m.lookup "id" = some v)

/-- The shape of the dictionary the IMDSv1 fallback builds: the raw flat field
names, no `provider` key. -/
def awsV1Shape (d : Dict) : Prop :=
  d.lookup "provider" = none
  ∧ ∃ a b c z,
      d = [("accountId", .str a), ("instanceId", .str b),
           ("instanceType", .str c), ("availabilityZone", .str z),
           ("region", .str (pyDropLastChar z))]

/-- An environment holding exactly the four `WEBSITE_*` variables. -/
def appServiceEnviron (owner iid site rg : String) : Environ := fun k =>
  if k = "WEBSITE_OWNER_NAME" then some owner
  else if k = "WEBSITE_INSTANCE_ID" then some iid
  else if k = "WEBSITE_SITE_NAME" then some site
  else if k = "WEBSITE_RESOURCE_GROUP" then some rg
  else none

/-- An owner name with a single `+` whose remainder contains the token
`webspace` twice. -/
def doubleWebspaceEnviron : Environ :=
  appServiceEnviron "sub1+rg-westuswebspaceXwebspaceY" "iid1" "site1" "rg1"

/-- AWS oracle in which every HTTP body arrives but is not valid JSON: the
identity document cannot be decoded. -/
def awsBadJsonEnv : AwsEnv :=
  { connect := .ok (), token := .ok "tok",
    fetch := fun _ => .ok "garbage",
    json_loads := fun _ => .error .jsonDecodeError }

/-- AWS oracle in which the token arrives but the identity-document fetch
fails with HTTP 401 and the four flat-field GETs succeed. -/
def awsV1Env : AwsEnv :=
  { connect := .ok (), token := .ok "tok",
    fetch := fun p =>
      if p = awsDocPath then .error (.httpError 401)
      else if p = "iam/info" then .ok "acct-1"
      else if p = "instance-id" then .ok "i-123"
      else if p = "instance-type" then .ok "t2.micro"
      else .ok "us-east-1a",
    json_loads := fun _ => .error .jsonDecodeError }

/-- The dictionary `aws_metadata` returns under `awsV1Env`. -/
def awsV1EnvDict : Dict :=
  [("accountId", .str "acct-1"),
   ("instanceId", .str "i-123"),
   ("instanceType", .str "t2.micro"),
   ("availabilityZone", .str "us-east-1a"),
   ("region", .str "us-east-1")]

/-- AWS oracle in which the identity-document fetch fails with HTTP 404. -/
def awsHttp404Env : AwsEnv :=
  { connect := .ok (), token := .ok "tok",
    fetch := fun _ => .error (.httpError 404),
    json_loads := fun _ => .error .jsonDecodeError }

/-- Azure oracle in which the link-local connection fails while the App
Service environment variables are present and well-formed. -/
def azureConnFailEnv : AzureEnv :=
  { connect := .error .socketError,
    fetchCompute := .error .socketError,
    json_loads := fun _ => .error .jsonDecodeError,
    environ := appServiceEnviron "sub123+rg1-westus2webspace9f8" "iid1" "site1" "rg1" }

/-- An Azure compute-metadata document whose `zone` is the empty string. -/
def azureEmptyZoneDoc : PyVal :=
  .dict [("subscriptionId", .str "sub-1"), ("vmId", .str "vm-1"),
         ("name", .str "vm-name"), ("resourceGroupName", .str "rg-1"),
         ("zone", .str ""), ("vmSize", .str "Standard_D2"),
         ("location", .str "westeurope")]

/-- Azure oracle with a reachable metadata service returning
`azureEmptyZoneDoc`. -/
def azureEmptyZoneEnv : AzureEnv :=
  { connect := .ok (),
    fetchCompute := .ok "body",
    json_loads := fun _ => .ok azureEmptyZoneDoc,
    environ := fun _ => none }

/-- A GCP recursive metadata document with a numeric instance id and a zone
path ending in `zones/us-central1-a`. -/
def gcpDoc : PyVal :=
  .dict [("instance",
          .dict [("id", .int 12345), ("name", .str "inst-1"),
                 ("machineType", .str "projects/1/machineTypes/n1-standard-1"),
                 ("zone", .str "projects/1/zones/us-central1-a")]),
         ("project", .dict [("projectId", .str "proj-1")])]

/-- GCP oracle with a resolvable hostname returning `gcpDoc`. -/
def gcpSuccessEnv : GcpEnv :=
  { getaddrinfo := .ok (),
    fetchMeta := .ok "body",
    json_loads := fun _ => .ok gcpDoc }

end Cloud

namespace Cloud

lemma pySplitGo_single_of_not_contains (c : Char) :
    ∀ (fuel : Nat) (s acc : List Char), s.contains c = false →
      pySplitGo [c] fuel s acc = [acc.reverse ++ s] := by
  intro fuel
  induction fuel with
  | zero => intro s acc _; rfl
  | succ n ih =>
    intro s acc hs
    cases s with
    | nil => simp [pySplitGo]
    | cons x rest =>
      simp only [List.contains, List.elem_cons] at hs
      cases hcx : c == x with
      | true => rw [hcx] at hs; simp at hs
      | false =>
        rw [hcx] at hs
        have hrest : rest.contains c = false := by
          simpa [List.contains] using hs
        simp only [pySplitGo, List.isPrefixOf, hcx, Bool.false_and, if_neg]
        rw [ih rest (x :: acc) hrest]
        simp

lemma pySplit_dash_of_not_contains (s : String)
    (h : pyContainsChar s dashChar = false) : pySplit "-" s = [s] := by
  unfold pyContainsChar at h
  unfold pySplit
  have hd : ("-" : String).data = [dashChar] := by decide
  rw [hd, pySplitGo_single_of_not_contains dashChar _ _ _ h]
  simp

lemma rsplit1_dash_of_not_contains (s : String)
    (h : pyContainsChar s dashChar = false) : rsplit1 "-" s = [s] := by
  unfold rsplit1
  rw [pySplit_dash_of_not_contains s h]
  simp

lemma app_service_on_environ (owner iid site rg : String) :
    azure_app_service_metadata (appServiceEnviron owner iid site rg) =
      appServiceParse owner iid site rg := rfl

/-- C7: when `WEBSITE_OWNER_NAME` is `sub123+rg1-westus2webspace9f8` and the
other three `WEBSITE_*` variables are set and non-empty,
`azure_app_service_metadata` returns provider `azure`, account id `sub123`,
region `westus2`, and the instance/project fields from the other variables. -/
theorem app_service_success_mapping (iid site rg : String)
    (h1 : iid ≠ "") (h2 : site ≠ "") (h3 : rg ≠ "") :
    azure_app_service_metadata
        (appServiceEnviron "sub123+rg1-westus2webspace9f8" iid site rg) =
      [("provider", .str "azure"),
       ("account", .dict [("id", .str "sub123")]),
       ("region", .str "westus2"),
       ("instance", .dict [("id", .str iid), ("name", .str site)]),
       ("project", .dict [("name", .str rg)])] := by
  rw [app_service_on_environ]
  unfold appServiceParse
  rw [if_neg]
  · rfl
  · push_neg
    exact ⟨by decide, h1, h2, h3⟩

lemma appServiceParse_empty_of_bad (owner iid site rg : String)
    (h : owner = "" ∨ iid = "" ∨ site = "" ∨ rg = ""
       ∨ pyContainsChar owner plusChar = false
       ∨ (∃ a b, pySplit "+" owner = [a, b] ∧ (pySplit "webspace" b).length = 1)
       ∨ (∃ a b p q, pySplit "+" owner = [a, b] ∧ pySplit "webspace" b = [p, q]
            ∧ pyContainsChar p dashChar = false)) :
    appServiceParse owner iid site rg = [] := by
  unfold appServiceParse
  by_cases he : owner = "" ∨ iid = "" ∨ site = "" ∨ rg = ""
  · rw [if_pos he]
  · rw [if_neg he]
    rcases h with h | h | h | h | h | ⟨a, b, hab, hlen⟩ | ⟨a, b, p, q, hab, hpq, hdash⟩
    · exact absurd (Or.inl h) he
    · exact absurd (Or.inr (Or.inl h)) he
    · exact absurd (Or.inr (Or.inr (Or.inl h))) he
    · exact absurd (Or.inr (Or.inr (Or.inr h))) he
    · rw [if_pos (by simp [h])]
    · by_cases hc : pyContainsChar owner plusChar
      · rw [if_neg (by simp [hc])]
        rcases List.length_eq_one.mp hlen with ⟨x, hx⟩
        simp only [hab, hx]
      · rw [if_pos (by simp [hc])]
    · by_cases hc : pyContainsChar owner plusChar
      · rw [if_neg (by simp [hc])]
        simp only [hab, hpq, rsplit1_dash_of_not_contains p hdash]
      · rw [if_pos (by simp [hc])]

/-- C8: `azure_app_service_metadata` returns the empty mapping (and cannot
raise, being a total function whose internal split failures are caught) when
any of the four `WEBSITE_*` variables is unset or empty, or when
`WEBSITE_OWNER_NAME` is malformed: no `+`, no `webspace` token in the
post-`+` remainder, or no `-` in the region-bearing part before `webspace`. -/
theorem app_service_malformed_empty (environ : Environ)
    (h : environ "WEBSITE_OWNER_NAME" = none ∨ environ "WEBSITE_OWNER_NAME" = some ""
       ∨ environ "WEBSITE_INSTANCE_ID" = none ∨ environ "WEBSITE_INSTANCE_ID" = some ""
       ∨ environ "WEBSITE_SITE_NAME" = none ∨ environ "WEBSITE_SITE_NAME" = some ""
       ∨ environ "WEBSITE_RESOURCE_GROUP" = none ∨ environ "WEBSITE_RESOURCE_GROUP" = some ""
       ∨ (∃ owner, environ "WEBSITE_OWNER_NAME" = some owner ∧
            (pyContainsChar owner plusChar = false
             ∨ (∃ a b, pySplit "+" owner = [a, b] ∧ (pySplit "webspace" b).length = 1)
             ∨ (∃ a b p q, pySplit "+" owner = [a, b] ∧ pySplit "webspace" b = [p, q]
                  ∧ pyContainsChar p dashChar = false)))) :
    azure_app_service_metadata environ = [] := by
  unfold azure_app_service_metadata
  cases h1 : environ "WEBSITE_OWNER_NAME" with
  | none => cases environ "WEBSITE_INSTANCE_ID" <;> cases environ "WEBSITE_SITE_NAME" <;>
      cases environ "WEBSITE_RESOURCE_GROUP" <;> rfl
  | some ow =>
    cases h2 : environ "WEBSITE_INSTANCE_ID" with
    | none => cases environ "WEBSITE_SITE_NAME" <;> cases environ "WEBSITE_RESOURCE_GROUP" <;> rfl
    | some iv =>
      cases h3 : environ "WEBSITE_SITE_NAME" with
      | none => cases environ "WEBSITE_RESOURCE_GROUP" <;> rfl
      | some sv =>
        cases h4 : environ "WEBSITE_RESOURCE_GROUP" with
        | none => rfl
        | some rv =>
          show appServiceParse ow iv sv rv = []
          apply appServiceParse_empty_of_bad
          rcases h with h | h | h | h | h | h | h | h | ⟨o2, ho2, hsh⟩
          · rw [h1] at h; exact absurd h (by simp)
          · rw [h1] at h; exact Or.inl (Option.some.inj h)
          · rw [h2] at h; exact absurd h (by simp)
          · rw [h2] at h; exact Or.inr (Or.inl (Option.some.inj h))
          · rw [h3] at h; exact absurd h (by simp)
          · rw [h3] at h; exact Or.inr (Or.inr (Or.inl (Option.some.inj h)))
          · rw [h4] at h; exact absurd h (by simp)
          · rw [h4] at h; exact Or.inr (Or.inr (Or.inr (Or.inl (Option.some.inj h))))
          · rw [h1] at ho2
            have : o2 = ow := (Option.some.inj ho2).symm
            subst this
            rcases hsh with hsh | hsh | hsh
            · exact Or.inr (Or.inr (Or.inr (Or.inr (Or.inl hsh))))
            · exact Or.inr (Or.inr (Or.inr (Or.inr (Or.inr (Or.inl hsh)))))
            · exact Or.inr (Or.inr (Or.inr (Or.inr (Or.inr (Or.inr hsh)))))

lemma appServiceParse_empty_of_multi (owner iid site rg : String)
    (h : 3 ≤ (pySplit "+" owner).length
       ∨ ∃ a b, pySplit "+" owner = [a, b] ∧ 3 ≤ (pySplit "webspace" b).length) :
    appServiceParse owner iid site rg = [] := by
  unfold appServiceParse
  by_cases he : owner = "" ∨ iid = "" ∨ site = "" ∨ rg = ""
  · rw [if_pos he]
  · rw [if_neg he]
    by_cases hc : pyContainsChar owner plusChar
    · rw [if_neg (by simp [hc])]
      rcases h with h | ⟨a, b, hab, h⟩
      · match hl : pySplit "+" owner, h with
        | x :: y :: z :: t, _ => simp
      · simp only [hab]
        match hl : pySplit "webspace" b, h with
        | x :: y :: z :: t, _ => simp
    · rw [if_pos (by simp [hc])]

/-- C10: with all four `WEBSITE_*` variables set and non-empty, an owner name
containing more than one `+` (three or more `+`-split parts), or whose
post-`+` remainder contains `webspace` more than once (three or more
`webspace`-split parts), makes `azure_app_service_metadata` return the empty
mapping, because the two-way unpacking of the unbounded split fails; the
split-once variant of the parse succeeds on such an input. -/
theorem app_service_multi_delimiter_empty :
    (∀ (environ : Environ) (owner iid site rg : String),
        environ "WEBSITE_OWNER_NAME" = some owner →
        environ "WEBSITE_INSTANCE_ID" = some iid →
        environ "WEBSITE_SITE_NAME" = some site →
        environ "WEBSITE_RESOURCE_GROUP" = some rg →
        (3 ≤ (pySplit "+" owner).length
         ∨ ∃ a b, pySplit "+" owner = [a, b] ∧ 3 ≤ (pySplit "webspace" b).length) →
        azure_app_service_metadata environ = [])
    ∧ azure_app_service_metadata doubleWebspaceEnviron = []
    ∧ azure_app_service_metadata_split1 doubleWebspaceEnviron ≠ [] := by
  refine ⟨?_, by rfl, fun hcontra => List.noConfusion hcontra⟩
  intro environ owner iid site rg h1 h2 h3 h4 h
  unfold azure_app_service_metadata
  rw [h1, h2, h3, h4]
  exact appServiceParse_empty_of_multi owner iid site rg h

/-- Witness for C10 at a concrete owner name with a doubled `webspace`. -/
theorem app_service_multi_delimiter_empty_witness :
    azure_app_service_metadata doubleWebspaceEnviron = [] :=
  app_service_multi_delimiter_empty.1 doubleWebspaceEnviron
    "sub1+rg-westuswebspaceXwebspaceY" "iid1" "site1" "rg1"
    rfl rfl rfl rfl
    (Or.inr ⟨"sub1", "rg-westuswebspaceXwebspaceY", rfl, by decide⟩)

/-- C5: whenever any step of `azure_metadata`'s pipeline fails (connectivity,
HTTP, or parsing), the probe returns exactly the result of
`azure_app_service_metadata` on the process environment rather than an empty
mapping; concretely, after a connection failure the environment variables
determine a non-empty App Service result. -/
theorem azure_failure_delegates_to_app_service :
    (∀ (e : AzureEnv) (err : PyExc), azurePipeline e = .error err →
        azure_metadata e = azure_app_service_metadata e.environ)
    ∧ azure_metadata azureConnFailEnv =
        [("provider", .str "azure"),
         ("account", .dict [("id", .str "sub123")]),
         ("region", .str "westus2"),
         ("instance", .dict [("id", .str "iid1"), ("name", .str "site1")]),
         ("project", .dict [("name", .str "rg1")])] := by
  constructor
  · intro e err h
    unfold azure_metadata
    rw [h]
  · rfl

/-- Witness for C5: a connection failure delegates to the App Service probe. -/
theorem azure_failure_delegates_witness :
    azure_metadata azureConnFailEnv =
      azure_app_service_metadata azureConnFailEnv.environ :=
  azure_failure_delegates_to_app_service.1 azureConnFailEnv .socketError rfl

/-- C6: when the Azure metadata response has a `zone` field whose value is
falsy (such as the empty string), the returned mapping lacks the
`availability_zone` key entirely while all other normalized fields are
present. -/
theorem azure_falsy_zone_omitted (e : AzureEnv) (body : String) (doc : Dict)
    (subId vmId vmName rgName zone vmSize location : PyVal)
    (hc : e.connect = .ok ()) (hf : e.fetchCompute = .ok body)
    (hj : e.json_loads body = .ok (.dict doc))
    (h1 : doc.lookup "subscriptionId" = some subId)
    (h2 : doc.lookup "vmId" = some vmId)
    (h3 : doc.lookup "name" = some vmName)
    (h4 : doc.lookup "resourceGroupName" = some rgName)
    (h5 : doc.lookup "zone" = some zone)
    (h6 : doc.lookup "vmSize" = some vmSize)
    (h7 : doc.lookup "location" = some location)
    (hz : zone.falsy = true) :
    azure_metadata e =
      [("account", .dict [("id", subId)]),
       ("instance", .dict [("id", vmId), ("name", vmName)]),
       ("project", .dict [("name", rgName)]),
       ("machine", .dict [("type", vmSize)]),
       ("provider", .str "azure"),
       ("region", location)]
    ∧ (azure_metadata e).lookup "availability_zone" = none := by
  have hmain : azure_metadata e =
      [("account", .dict [("id", subId)]),
       ("instance", .dict [("id", vmId), ("name", vmName)]),
       ("project", .dict [("name", rgName)]),
       ("machine", .dict [("type", vmSize)]),
       ("provider", .str "azure"),
       ("region", location)] := by
    unfold azure_metadata azurePipeline
    simp only [PyVal.index, hc, hf, hj, h1, h2, h3, h4, h5, h6, h7, hz]
    simp [List.filter]
  exact ⟨hmain, by rw [hmain]; rfl⟩

lemma awsV1Fallback_error (env : AwsEnv) (tr : List Request) (err : PyExc)
    (h : (awsV1Fallback env tr).fst = .error err) : outerCatches err = false := by
  unfold awsV1Fallback at h
  cases hf1 : env.fetch "iam/info" with
  | error e =>
    simp only [hf1] at h
    by_cases hoc : outerCatches e
    · simp [hoc] at h
    · simp [hoc] at h
      rw [← h]
      simpa using hoc
  | ok a1 =>
  simp only [hf1] at h
  cases hf2 : env.fetch "instance-id" with
  | error e =>
    simp only [hf2] at h
    by_cases hoc : outerCatches e
    · simp [hoc] at h
    · simp [hoc] at h
      rw [← h]
      simpa using hoc
  | ok a2 =>
  simp only [hf2] at h
  cases hf3 : env.fetch "instance-type" with
  | error e =>
    simp only [hf3] at h
    by_cases hoc : outerCatches e
    · simp [hoc] at h
    · simp [hoc] at h
      rw [← h]
      simpa using hoc
  | ok a3 =>
  simp only [hf3] at h
  cases hf4 : env.fetch "placement/availability-zone" with
  | error e =>
    simp only [hf4] at h
    by_cases hoc : outerCatches e
    · simp [hoc] at h
    · simp [hoc] at h
      rw [← h]
      simpa using hoc
  | ok a4 =>
  simp [hf4] at h

lemma awsHandle_error (env : AwsEnv) (e : PyExc) (tr : List Request) (err : PyExc)
    (h : (awsHandle env e tr).fst = .error err) : outerCatches err = false := by
  unfold awsHandle at h
  cases e with
  | httpError s =>
    by_cases h4 : s = 401
    · simp only [h4, if_pos] at h
      exact awsV1Fallback_error env tr err (by simpa using h)
    · simp [h4] at h
  | socketError => simp at h
  | jsonDecodeError => simp at h; rw [← h]; rfl
  | keyError k => simp at h; rw [← h]; rfl
  | typeError => simp at h; rw [← h]; rfl
  | valueError => simp at h; rw [← h]; rfl
  | indexError => simp at h; rw [← h]; rfl

lemma aws_metadata_error (env : AwsEnv) (err : PyExc)
    (h : (aws_metadata env).fst = .error err) : outerCatches err = false := by
  unfold aws_metadata at h
  cases hc : env.connect with
  | error e =>
    simp only [hc] at h
    by_cases hoc : outerCatches e
    · simp [hoc] at h
    · simp [hoc] at h
      rw [← h]
      simpa using hoc
  | ok u =>
  simp only [hc] at h
  cases ht : env.token with
  | error e => simp only [ht] at h; exact awsHandle_error env e _ err h
  | ok tok =>
  simp only [ht] at h
  cases hfd : env.fetch awsDocPath with
  | error e => simp only [hfd] at h; exact awsHandle_error env e _ err h
  | ok body =>
  simp only [hfd] at h
  cases hj : env.json_loads body with
  | error e => simp only [hj] at h; exact awsHandle_error env e _ err h
  | ok doc =>
  simp only [hj] at h
  cases hn : awsNormalize doc with
  | error e => simp only [hn] at h; exact awsHandle_error env e _ err h
  | ok d => simp [hn] at h

/-- Counterexample to C1: with the connection and HTTP fetches succeeding but
the identity document failing to decode as JSON, `aws_metadata` propagates
the `JSONDecodeError` to the caller instead of returning an empty mapping. -/
theorem aws_parse_error_raises :
    (aws_metadata awsBadJsonEnv).fst = .error .jsonDecodeError := rfl

/-- C1 (amended): every exception `aws_metadata` propagates to the caller is
neither a socket error nor a urllib3 HTTP error - network and HTTP failures
are always swallowed - and a socket failure at connect, or a non-401 HTTP
failure at the token request or at the identity-document fetch, yields the
empty mapping.  (Parse failures - malformed JSON or missing document keys -
do raise, as the counterexample shows.) -/
theorem aws_network_failures_swallowed :
    (∀ (env : AwsEnv) (err : PyExc), (aws_metadata env).fst = .error err →
        err ≠ .socketError ∧ ∀ s, err ≠ .httpError s)
    ∧ (∀ env : AwsEnv, env.connect = .error .socketError →
        (aws_metadata env).fst = .ok [])
    ∧ (∀ (env : AwsEnv) (s : Nat), s ≠ 401 → env.connect = .ok () →
        env.token = .error (.httpError s) → (aws_metadata env).fst = .ok [])
    ∧ (∀ (env : AwsEnv) (s : Nat) (t : String), s ≠ 401 → env.connect = .ok () →
        env.token = .ok t → env.fetch awsDocPath = .error (.httpError s) →
        (aws_metadata env).fst = .ok []) := by
  refine ⟨?_, ?_, ?_, ?_⟩
  · intro env err h
    have hoc := aws_metadata_error env err h
    refine ⟨fun heq => ?_, fun s heq => ?_⟩
    · rw [heq] at hoc; exact absurd hoc (by simp [outerCatches])
    · rw [heq] at hoc; exact absurd hoc (by simp [outerCatches])
  · intro env hc
    unfold aws_metadata
    rw [hc]
    rfl
  · intro env s hs hc ht
    unfold aws_metadata awsHandle
    simp [hc, ht, hs]
  · intro env s t hs hc ht hfd
    unfold aws_metadata awsHandle
    simp [hc, ht, hfd, hs]

/-- Witness for C1 (amended): an HTTP 404 on the identity-document fetch
yields the empty mapping. -/
theorem aws_network_failures_swallowed_witness :
    (aws_metadata awsHttp404Env).fst = .ok [] :=
  aws_network_failures_swallowed.2.2.2 awsHttp404Env 404 "tok" (by decide) rfl rfl rfl

/-- Counterexample to C2: the dictionary built by the IMDSv1 fallback path of
`aws_metadata` is non-empty and has no `provider` key at all. -/
theorem aws_v1_result_lacks_provider :
    (aws_metadata awsV1Env).fst = .ok awsV1EnvDict
    ∧ awsV1EnvDict ≠ []
    ∧ awsV1EnvDict.lookup "provider" = none :=
  ⟨rfl, fun hcontra => List.noConfusion hcontra, rfl⟩

lemma appServiceParse_core (owner iid site rg : String) :
    appServiceParse owner iid site rg = []
    ∨ hasCore "azure" (appServiceParse owner iid site rg) := by
  unfold appServiceParse hasCore
  repeat' split
  all_goals first
    | exact Or.inl rfl
    | exact Or.inr ⟨rfl, ⟨_, rfl⟩, _, _, rfl, rfl⟩

lemma app_service_core (environ : Environ) :
    azure_app_service_metadata environ = []
    ∨ hasCore "azure" (azure_app_service_metadata environ) := by
  unfold azure_app_service_metadata
  cases environ "WEBSITE_OWNER_NAME" <;> cases environ "WEBSITE_INSTANCE_ID" <;>
    cases environ "WEBSITE_SITE_NAME" <;> cases environ "WEBSITE_RESOURCE_GROUP" <;>
    first
      | exact Or.inl rfl
      | apply appServiceParse_core

lemma azurePipeline_ok (e : AzureEnv) (d : Dict) (h : azurePipeline e = .ok d) :
    hasCore "azure" d := by
  unfold azurePipeline at h
  cases h1 : e.connect with
  | error e1 => simp [h1] at h
  | ok u1 =>
  simp only [h1] at h
  cases h2 : e.fetchCompute with
  | error e2 => simp [h2] at h
  | ok body =>
  simp only [h2] at h
  cases h3 : e.json_loads body with
  | error e3 => simp [h3] at h
  | ok doc =>
  simp only [h3] at h
  cases h4 : doc.index "subscriptionId" with
  | error e4 => simp [h4] at h
  | ok subId =>
  simp only [h4] at h
  cases h5 : doc.index "vmId" with
  | error e5 => simp [h5] at h
  | ok vmId =>
  simp only [h5] at h
  cases h6 : doc.index "name" with
  | error e6 => simp [h6] at h
  | ok vmName =>
  simp only [h6] at h
  cases h7 : doc.index "resourceGroupName" with
  | error e7 => simp [h7] at h
  | ok rgName =>
  simp only [h7] at h
  cases h8 : doc.index "zone" with
  | error e8 => simp [h8] at h
  | ok zone =>
  simp only [h8] at h
  cases h9 : doc.index "vmSize" with
  | error e9 => simp [h9] at h
  | ok vmSize =>
  simp only [h9] at h
  cases h10 : doc.index "location" with
  | error e10 => simp [h10] at h
  | ok location =>
  simp only [h10] at h
  by_cases hz : zone.falsy
  · simp only [hz, if_pos] at h
    rw [← (by simpa using h : _ = d)]
    exact ⟨rfl, ⟨_, rfl⟩, _, _, rfl, rfl⟩
  · simp only [hz] at h
    rw [← (by simpa using h : _ = d)]
    exact ⟨rfl, ⟨_, rfl⟩, _, _, rfl, rfl⟩

lemma gcpPipeline_ok (e : GcpEnv) (d : Dict) (h : gcpPipeline e = .ok d) :
    hasCore "gcp" d := by
  unfold gcpPipeline at h
  cases h1 : e.getaddrinfo with
  | error e1 => simp [h1] at h
  | ok u1 =>
  simp only [h1] at h
  cases h2 : e.fetchMeta with
  | error e2 => simp [h2] at h
  | ok body =>
  simp only [h2] at h
  cases h3 : e.json_loads body with
  | error e3 => simp [h3] at h
  | ok doc =>
  simp only [h3] at h
  cases h4 : doc.index "instance" with
  | error e4 => simp [h4] at h
  | ok instanceVal =>
  simp only [h4] at h
  cases h5 : instanceVal.index "zone" with
  | error e5 => simp [h5] at h
  | ok zoneVal =>
  simp only [h5] at h
  cases h6 : zoneVal.asStr with
  | error e6 => simp [h6] at h
  | ok zone =>
  simp only [h6] at h
  cases h7 : instanceVal.index "id" with
  | error e7 => simp [h7] at h
  | ok idVal =>
  simp only [h7] at h
  cases h8 : instanceVal.index "name" with
  | error e8 => simp [h8] at h
  | ok nameVal =>
  simp only [h8] at h
  cases h9 : doc.index "project" with
  | error e9 => simp [h9] at h
  | ok projectVal =>
  simp only [h9] at h
  cases h10 : projectVal.index "projectId" with
  | error e10 => simp [h10] at h
  | ok projectId =>
  simp only [h10] at h
  cases h11 : instanceVal.index "machineType" with
  | error e11 => simp [h11] at h
  | ok machineTypeVal =>
  simp only [h11] at h
  cases h12 : machineTypeVal.asStr with
  | error e12 => simp [h12] at h
  | ok machineType =>
  simp only [h12] at h
  rw [← (by simpa using h : _ = d)]
  exact ⟨rfl, ⟨_, rfl⟩, _, _, rfl, rfl⟩

lemma awsNormalize_ok (doc : PyVal) (d : Dict) (h : awsNormalize doc = .ok d) :
    hasCore "aws" d := by
  unfold awsNormalize at h
  cases h1 : doc.index "accountId" with
  | error e1 => simp [h1] at h
  | ok accountId =>
  simp only [h1] at h
  cases h2 : doc.index "instanceId" with
  | error e2 => simp [h2] at h
  | ok instanceId =>
  simp only [h2] at h
  cases h3 : doc.index "availabilityZone" with
  | error e3 => simp [h3] at h
  | ok availabilityZone =>
  simp only [h3] at h
  cases h4 : doc.index "instanceType" with
  | error e4 => simp [h4] at h
  | ok instanceType =>
  simp only [h4] at h
  cases h5 : doc.index "region" with
  | error e5 => simp [h5] at h
  | ok region =>
  simp only [h5] at h
  rw [← (by simpa using h : _ = d)]
  exact ⟨rfl, ⟨_, rfl⟩, _, _, rfl, rfl⟩

lemma awsV1Fallback_ok (env : AwsEnv) (tr : List Request) (d : Dict)
    (h : (awsV1Fallback env tr).fst = .ok d) : d = [] ∨ awsV1Shape d := by
  unfold awsV1Fallback at h
  cases hf1 : env.fetch "iam/info" with
  | error e1 =>
    simp only [hf1] at h
    by_cases hoc : outerCatches e1
    · simp [hoc] at h; exact Or.inl h
    · simp [hoc] at h
  | ok a1 =>
  simp only [hf1] at h
  cases hf2 : env.fetch "instance-id" with
  | error e2 =>
    simp only [hf2] at h
    by_cases hoc : outerCatches e2
    · simp [hoc] at h; exact Or.inl h
    · simp [hoc] at h
  | ok a2 =>
  simp only [hf2] at h
  cases hf3 : env.fetch "instance-type" with
  | error e3 =>
    simp only [hf3] at h
    by_cases hoc : outerCatches e3
    · simp [hoc] at h; exact Or.inl h
    · simp [hoc] at h
  | ok a3 =>
  simp only [hf3] at h
  cases hf4 : env.fetch "placement/availability-zone" with
  | error e4 =>
    simp only [hf4] at h
    by_cases hoc : outerCatches e4
    · simp [hoc] at h; exact Or.inl h
    · simp [hoc] at h
  | ok a4 =>
  simp only [hf4] at h
  rw [← (by simpa using h : _ = d)]
  exact Or.inr ⟨rfl, a1, a2, a3, a4, rfl⟩

lemma awsHandle_ok (env : AwsEnv) (e : PyExc) (tr : List Request) (d : Dict)
    (h : (awsHandle env e tr).fst = .ok d) : d = [] ∨ awsV1Shape d := by
  unfold awsHandle at h
  cases e with
  | httpError s =>
    by_cases h4 : s = 401
    · simp only [h4, if_pos] at h
      exact awsV1Fallback_ok env tr d (by simpa using h)
    · simp [h4] at h
      exact Or.inl h
  | socketError => simp at h; exact Or.inl h
  | jsonDecodeError => simp at h
  | keyError k => simp at h
  | typeError => simp at h
  | valueError => simp at h
  | indexError => simp at h

lemma aws_metadata_ok (env : AwsEnv) (d : Dict)
    (h : (aws_metadata env).fst = .ok d) :
    d = [] ∨ hasCore "aws" d ∨ awsV1Shape d := by
  unfold aws_metadata at h
  cases hc : env.connect with
  | error e =>
    simp only [hc] at h
    by_cases hoc : outerCatches e
    · simp [hoc] at h; exact Or.inl h
    · simp [hoc] at h
  | ok u =>
  simp only [hc] at h
  cases ht : env.token with
  | error e =>
    simp only [ht] at h
    rcases awsHandle_ok env e _ d h with h2 | h2
    · exact Or.inl h2
    · exact Or.inr (Or.inr h2)
  | ok tok =>
  simp only [ht] at h
  cases hfd : env.fetch awsDocPath with
  | error e =>
    simp only [hfd] at h
    rcases awsHandle_ok env e _ d h with h2 | h2
    · exact Or.inl h2
    · exact Or.inr (Or.inr h2)
  | ok body =>
  simp only [hfd] at h
  cases hj : env.json_loads body with
  | error e =>
    simp only [hj] at h
    rcases awsHandle_ok env e _ d h with h2 | h2
    · exact Or.inl h2
    · exact Or.inr (Or.inr h2)
  | ok doc =>
  simp only [hj] at h
  cases hn : awsNormalize doc with
  | error e =>
    simp only [hn] at h
    rcases awsHandle_ok env e _ d h with h2 | h2
    · exact Or.inl h2
    · exact Or.inr (Or.inr h2)
  | ok d2 =>
  simp only [hn] at h
  have : d2 = d := by simpa using h
  exact Or.inr (Or.inl (this ▸ awsNormalize_ok doc d2 hn))

/-- C2 (amended): `gcp_metadata`, `azure_metadata` and
`azure_app_service_metadata` always return either the empty mapping or one
containing `provider` (gcp/azure) together with `region` and `instance.id`;
`aws_metadata`, when it returns a mapping, returns either the empty mapping,
a normalized IMDSv2 mapping with that core, or the IMDSv1 fallback shape with
raw keys `accountId`/`instanceId`/`instanceType`/`availabilityZone`/`region`
and no `provider`. -/
theorem probe_result_core_invariant :
    (∀ e : GcpEnv, gcp_metadata e = [] ∨ hasCore "gcp" (gcp_metadata e))
    ∧ (∀ e : AzureEnv, azure_metadata e = [] ∨ hasCore "azure" (azure_metadata e))
    ∧ (∀ environ : Environ,
        azure_app_service_metadata environ = []
        ∨ hasCore "azure" (azure_app_service_metadata environ))
    ∧ (∀ (env : AwsEnv) (d : Dict), (aws_metadata env).fst = .ok d →
        d = [] ∨ hasCore "aws" d ∨ awsV1Shape d) := by
  refine ⟨?_, ?_, app_service_core, aws_metadata_ok⟩
  · intro e
    cases hp : gcpPipeline e with
    | ok d =>
      have hd : gcp_metadata e = d := by unfold gcp_metadata; rw [hp]
      rw [hd]
      exact Or.inr (gcpPipeline_ok e d hp)
    | error err =>
      have hd : gcp_metadata e = [] := by unfold gcp_metadata; rw [hp]
      exact Or.inl hd
  · intro e
    cases hp : azurePipeline e with
    | ok d =>
      have hd : azure_metadata e = d := by unfold azure_metadata; rw [hp]
      rw [hd]
      exact Or.inr (azurePipeline_ok e d hp)
    | error err =>
      have hd : azure_metadata e = azure_app_service_metadata e.environ := by
        unfold azure_metadata; rw [hp]
      rw [hd]
      exact app_service_core e.environ

/-- Witness for C2 (amended): the IMDSv1 fallback dictionary falls in the raw
v1 shape. -/
theorem probe_result_core_invariant_witness :
    awsV1EnvDict = [] ∨ hasCore "aws" awsV1EnvDict ∨ awsV1Shape awsV1EnvDict :=
  probe_result_core_invariant.2.2.2 awsV1Env awsV1EnvDict rfl

/-- Counterexample to C3: on the IMDSv1 path the four flat text-field GETs
are issued with `retries=False`, so none of them is governed by the pool's
`Retry(total=5, backoff_factor=1, status_forcelist=[401])` policy. -/
theorem flat_gets_do_not_use_pool_retries :
    ((aws_metadata awsV1Env).snd.filter isFlatFieldGet).length = 4
    ∧ ((aws_metadata awsV1Env).snd.filter isFlatFieldGet).all
        (fun r => r.effRetries awsPoolRetryConf == some awsPoolRetryConf) = false
    ∧ ((aws_metadata awsV1Env).snd.filter isFlatFieldGet).all
        (fun r => r.effRetries awsPoolRetryConf == none) = true :=
  ⟨rfl, rfl, rfl⟩

lemma awsV1Fallback_trace (env : AwsEnv) (tr : List Request) (r : Request)
    (hr : r ∈ (awsV1Fallback env tr).snd) :
    r ∈ tr ∨ ∃ path hs, r = fetch_metadata_request path hs := by
  unfold awsV1Fallback at hr
  cases hf1 : env.fetch "iam/info" with
  | error e1 =>
    simp only [hf1, List.mem_append, List.mem_singleton] at hr
    rcases hr with h | h
    · exact Or.inl h
    · exact Or.inr ⟨"iam/info", [], h⟩
  | ok a1 =>
  simp only [hf1] at hr
  cases hf2 : env.fetch "instance-id" with
  | error e2 =>
    simp only [hf2, List.mem_append, List.mem_singleton] at hr
    rcases hr with (h | h) | h
    · exact Or.inl h
    · exact Or.inr ⟨"iam/info", [], h⟩
    · exact Or.inr ⟨"instance-id", [], h⟩
  | ok a2 =>
  simp only [hf2] at hr
  cases hf3 : env.fetch "instance-type" with
  | error e3 =>
    simp only [hf3, List.mem_append, List.mem_singleton] at hr
    rcases hr with ((h | h) | h) | h
    · exact Or.inl h
    · exact Or.inr ⟨"iam/info", [], h⟩
    · exact Or.inr ⟨"instance-id", [], h⟩
    · exact Or.inr ⟨"instance-type", [], h⟩
  | ok a3 =>
  simp only [hf3] at hr
  cases hf4 : env.fetch "placement/availability-zone" with
  | error e4 =>
    simp only [hf4, List.mem_append, List.mem_singleton] at hr
    rcases hr with (((h | h) | h) | h) | h
    · exact Or.inl h
    · exact Or.inr ⟨"iam/info", [], h⟩
    · exact Or.inr ⟨"instance-id", [], h⟩
    · exact Or.inr ⟨"instance-type", [], h⟩
    · exact Or.inr ⟨"placement/availability-zone", [], h⟩
  | ok a4 =>
  simp only [hf4, List.mem_append, List.mem_singleton] at hr
  rcases hr with (((h | h) | h) | h) | h
  · exact Or.inl h
  · exact Or.inr ⟨"iam/info", [], h⟩
  · exact Or.inr ⟨"instance-id", [], h⟩
  · exact Or.inr ⟨"instance-type", [], h⟩
  · exact Or.inr ⟨"placement/availability-zone", [], h⟩

lemma awsHandle_trace (env : AwsEnv) (e : PyExc) (tr : List Request) (r : Request)
    (hr : r ∈ (awsHandle env e tr).snd) :
    r ∈ tr ∨ ∃ path hs, r = fetch_metadata_request path hs := by
  unfold awsHandle at hr
  cases e with
  | httpError s =>
    by_cases h4 : s = 401
    · simp only [h4, if_pos] at hr
      exact awsV1Fallback_trace env tr r (by simpa using hr)
    · simp [h4] at hr
      exact Or.inl hr
  | socketError => simp at hr; exact Or.inl hr
  | jsonDecodeError => simp at hr; exact Or.inl hr
  | keyError k => simp at hr; exact Or.inl hr
  | typeError => simp at hr; exact Or.inl hr
  | valueError => simp at hr; exact Or.inl hr
  | indexError => simp at hr; exact Or.inl hr

lemma aws_metadata_trace (env : AwsEnv) (r : Request)
    (hr : r ∈ (aws_metadata env).snd) :
    r = tokenRequest ∨ ∃ path hs, r = fetch_metadata_request path hs := by
  have base : ∀ hdr : List (String × String),
      r ∈ [tokenRequest, fetch_metadata_request awsDocPath hdr] →
      r = tokenRequest ∨ ∃ path hs, r = fetch_metadata_request path hs := by
    intro hdr h
    rcases List.mem_cons.mp h with h | h
    · exact Or.inl h
    · exact Or.inr ⟨awsDocPath, hdr, by simpa using h⟩
  unfold aws_metadata at hr
  cases hc : env.connect with
  | error e => simp [hc] at hr
  | ok u =>
  simp only [hc] at hr
  cases ht : env.token with
  | error e =>
    simp only [ht] at hr
    rcases awsHandle_trace env e _ r hr with h | h
    · exact Or.inl (by simpa using h)
    · exact Or.inr h
  | ok tok =>
  simp only [ht] at hr
  cases hfd : env.fetch awsDocPath with
  | error e =>
    simp only [hfd] at hr
    rcases awsHandle_trace env e _ r hr with h | h
    · exact base _ (by simpa using h)
    · exact Or.inr h
  | ok body =>
  simp only [hfd] at hr
  cases hj : env.json_loads body with
  | error e =>
    simp only [hj] at hr
    rcases awsHandle_trace env e _ r hr with h | h
    · exact base _ (by simpa using h)
    · exact Or.inr h
  | ok doc =>
  simp only [hj] at hr
  cases hn : awsNormalize doc with
  | error e =>
    simp only [hn] at hr
    rcases awsHandle_trace env e _ r hr with h | h
    · exact base _ (by simpa using h)
    · exact Or.inr h
  | ok d =>
  simp only [hn] at hr
  exact base _ (by simpa using hr)

/-- C3 (amended): every flat text-field GET `aws_metadata` issues carries a
1-second timeout and explicitly disabled retries; the 5-attempt,
backoff-factor-1, retry-on-401 `Retry` configuration is installed on the
`PoolManager` and governs only the token request, which does not override
it. -/
theorem flat_gets_request_parameters :
    (∀ env : AwsEnv, ((aws_metadata env).snd.filter isFlatFieldGet).all
        (fun r => r.retries == RetryArg.disabled && r.timeoutMs == 1000) = true)
    ∧ (∀ (path : String) (hs : List (String × String)),
        (fetch_metadata_request path hs).retries = RetryArg.disabled
        ∧ (fetch_metadata_request path hs).timeoutMs = 1000
        ∧ (fetch_metadata_request path hs).effRetries awsPoolRetryConf = none)
    ∧ awsPoolRetryConf = { total := 5, backoff_factor := 1, status_forcelist := [401] }
    ∧ tokenRequest.retries = RetryArg.poolDefault
    ∧ tokenRequest.effRetries awsPoolRetryConf = some awsPoolRetryConf := by
  refine ⟨?_, fun path hs => ⟨rfl, rfl, rfl⟩, rfl, rfl, rfl⟩
  intro env
  rw [List.all_eq_true]
  intro r hr
  rw [List.mem_filter] at hr
  rcases aws_metadata_trace env r hr.1 with h | ⟨path, hs, h⟩
  · rw [h] at hr
    exact absurd hr.2 (by decide)
  · rw [h]
    rfl

/-- C4: when the connection and the token request succeed but the
identity-document fetch fails with HTTP 401, `aws_metadata` issues exactly
the four flat-field GETs of the IMDSv1 path (IAM info, instance-id,
instance-type, availability-zone) and sets `region` to the fetched
availability zone minus its final character. -/
theorem aws_v1_fallback_four_gets (env : AwsEnv) (t acc inid inty az : String)
    (hc : env.connect = .ok ()) (ht : env.token = .ok t)
    (hfd : env.fetch awsDocPath = .error (.httpError 401))
    (h1 : env.fetch "iam/info" = .ok acc)
    (h2 : env.fetch "instance-id" = .ok inid)
    (h3 : env.fetch "instance-type" = .ok inty)
    (h4 : env.fetch "placement/availability-zone" = .ok az) :
    ((aws_metadata env).snd.filter isFlatFieldGet).map (fun r => r.url)
      = flatFieldPaths.map (fun p => V1_URL ++ p)
    ∧ ((aws_metadata env).snd.filter isFlatFieldGet).length = 4
    ∧ (aws_metadata env).fst = .ok
        [("accountId", .str acc), ("instanceId", .str inid),
         ("instanceType", .str inty), ("availabilityZone", .str az),
         ("region", .str (pyDropLastChar az))] := by
  unfold aws_metadata awsHandle awsV1Fallback
  simp only [hc, ht, hfd, h1, h2, h3, h4]
  exact ⟨rfl, rfl, rfl⟩

/-- Witness for C4: availability zone `us-east-1a` yields region
`us-east-1` after four flat-field GETs. -/
theorem aws_v1_fallback_four_gets_witness :
    ((aws_metadata awsV1Env).snd.filter isFlatFieldGet).map (fun r => r.url)
      = flatFieldPaths.map (fun p => V1_URL ++ p)
    ∧ ((aws_metadata awsV1Env).snd.filter isFlatFieldGet).length = 4
    ∧ (aws_metadata awsV1Env).fst = .ok
        [("accountId", .str "acct-1"), ("instanceId", .str "i-123"),
         ("instanceType", .str "t2.micro"), ("availabilityZone", .str "us-east-1a"),
         ("region", .str "us-east-1")] :=
  aws_v1_fallback_four_gets awsV1Env "tok" "acct-1" "i-123" "t2.micro" "us-east-1a"
    rfl rfl rfl rfl rfl rfl rfl

/-- C9: on a successful GCP fetch, `instance.id` is the stringified numeric
id, `machine.type` is the last `/`-separated segment of
`instance.machineType`, `availability_zone` is the last path segment of
`instance.zone`, and `region` is the availability zone with its trailing
`-suffix` segment removed. -/
theorem gcp_success_normalization (e : GcpEnv) (body : String)
    (doc instanceVal nameVal projectVal projectId : PyVal)
    (zone machineType : String) (n : Int)
    (hres : e.getaddrinfo = .ok ()) (hf : e.fetchMeta = .ok body)
    (hj : e.json_loads body = .ok doc)
    (hi : doc.index "instance" = .ok instanceVal)
    (hz : instanceVal.index "zone" = .ok (.str zone))
    (hid : instanceVal.index "id" = .ok (.int n))
    (hn : instanceVal.index "name" = .ok nameVal)
    (hp : doc.index "project" = .ok projectVal)
    (hpid : projectVal.index "projectId" = .ok projectId)
    (hm : instanceVal.index "machineType" = .ok (.str machineType)) :
    gcp_metadata e =
      [("provider", .str "gcp"),
       ("instance", .dict [("id", .str (toString n)), ("name", nameVal)]),
       ("project", .dict [("id", projectId)]),
       ("availability_zone", .str (lastSegOn "/" zone)),
       ("region", .str ((rsplit1 "-" (lastSegOn "/" zone)).headD "")),
       ("machine", .dict [("type", .str (lastSegOn "/" machineType))])] := by
  unfold gcp_metadata gcpPipeline
  simp only [hres, hf, hj, hi, hz, hid, hn, hp, hpid, hm, PyVal.asStr]
  rfl

/-- Witness for C9: a zone path ending in `zones/us-central1-a` yields
availability zone `us-central1-a` and region `us-central1`. -/
theorem gcp_success_normalization_witness :
    gcp_metadata gcpSuccessEnv =
      [("provider", .str "gcp"),
       ("instance", .dict [("id", .str "12345"), ("name", .str "inst-1")]),
       ("project", .dict [("id", .str "proj-1")]),
       ("availability_zone", .str "us-central1-a"),
       ("region", .str "us-central1"),
       ("machine", .dict [("type", .str "n1-standard-1")])] :=
  gcp_success_normalization gcpSuccessEnv "body"
    gcpDoc
    (.dict [("id", .int 12345), ("name", .str "inst-1"),
            ("machineType", .str "projects/1/machineTypes/n1-standard-1"),
            ("zone", .str "projects/1/zones/us-central1-a")])
    (.str "inst-1") (.dict [("projectId", .str "proj-1")]) (.str "proj-1")
    "projects/1/zones/us-central1-a" "projects/1/machineTypes/n1-standard-1" 12345
    rfl rfl rfl rfl rfl rfl rfl rfl rfl rfl

/-- Witness for C7 at concrete values of the other three variables. -/
theorem app_service_success_mapping_witness :
    azure_app_service_metadata
        (appServiceEnviron "sub123+rg1-westus2webspace9f8" "iid1" "site1" "rg1") =
      [("provider", .str "azure"),
       ("account", .dict [("id", .str "sub123")]),
       ("region", .str "westus2"),
       ("instance", .dict [("id", .str "iid1"), ("name", .str "site1")]),
       ("project", .dict [("name", .str "rg1")])] :=
  app_service_success_mapping "iid1" "site1" "rg1" (by decide) (by decide) (by decide)

/-- Witness for C6: an empty-string `zone` is dropped from the result. -/
theorem azure_falsy_zone_omitted_witness :
    azure_metadata azureEmptyZoneEnv =
      [("account", .dict [("id", .str "sub-1")]),
       ("instance", .dict [("id", .str "vm-1"), ("name", .str "vm-name")]),
       ("project", .dict [("name", .str "rg-1")]),
       ("machine", .dict [("type", .str "Standard_D2")]),
       ("provider", .str "azure"),
       ("region", .str "westeurope")]
    ∧ (azure_metadata azureEmptyZoneEnv).lookup "availability_zone" = none :=
  azure_falsy_zone_omitted azureEmptyZoneEnv "body"
    [("subscriptionId", .str "sub-1"), ("vmId", .str "vm-1"),
     ("name", .str "vm-name"), ("resourceGroupName", .str "rg-1"),
     ("zone", .str ""), ("vmSize", .str "Standard_D2"),
     ("location", .str "westeurope")]
    (.str "sub-1") (.str "vm-1") (.str "vm-name") (.str "rg-1") (.str "")
    (.str "Standard_D2") (.str "westeurope")
    rfl rfl rfl rfl rfl rfl rfl rfl rfl rfl rfl

/-- Witness for C8: an owner name with no `+` yields the empty mapping. -/
theorem app_service_malformed_empty_witness :
    azure_app_service_metadata
        (appServiceEnviron "sub123rg1-westus2webspace9f8" "iid1" "site1" "rg1") = [] :=
  app_service_malformed_empty
    (appServiceEnviron "sub123rg1-westus2webspace9f8" "iid1" "site1" "rg1")
    (Or.inr (Or.inr (Or.inr (Or.inr (Or.inr (Or.inr (Or.inr (Or.inr
      ⟨"sub123rg1-westus2webspace9f8", rfl, Or.inl (by decide)⟩))))))))

end Cloud
